import Mathlib

/-!
Shallow embedding of the recipe-generator backend (Go) and verification of
its specified behaviour.  Pure string manipulation is translated directly;
every external effect (LLM chat completion, transcription, database
statement, blob upload) is passed in explicitly as the outcome that the
corresponding vendor call produced, so each handler becomes a total
function of its inputs and of those outcomes.
-/

namespace RecipeGen

/-- Auxiliary scan for substring containment: does `needle` occur as a
contiguous run inside the haystack list?  Mirrors Go `strings.Contains`. -/
def containsAux (needle : List Char) : List Char → Bool
  | [] => needle.isEmpty
  | c :: rest => needle.isPrefixOf (c :: rest) || containsAux needle rest

/-- Go `strings.Contains hay needle`. -/
def strContains (hay needle : String) : Bool :=
  containsAux needle.toList hay.toList

/-- Go `strings.ToLower` (character-wise lowercasing; the inputs relevant
here are ASCII, where Go and Lean lowercasing agree). -/
def strToLower (s : String) : String :=
  String.mk (s.toList.map Char.toLower)

/-- Go `strings.ReplaceAll s " " "-"` (single-character replacement). -/
def strReplaceSpaceDash (s : String) : String :=
  String.mk (s.toList.map (fun c => if c = ' ' then '-' else c))

/-- Outcome of a Go call returning `(α, error)`: `.error msg` models a
non-nil error, `.ok v` a nil error with value `v`. -/
abbrev GoResult (α : Type) := Except String α

/-- One message of a chat-completion request. -/
structure ChatMessage where
  role : String
  content : String
deriving DecidableEq, Repr

/-- A chat-completion request as handed to the OpenAI client: the ordered
message list and the model name. -/
structure ChatCall where
  messages : List ChatMessage
  model : String
deriving DecidableEq, Repr

/-- The provider environment: for each chat-completion request, the outcome
the vendor returned (`.error` = transport/provider failure, `.ok` = the
content of the first choice).  The Go code issues synchronous single-attempt
calls, so one function models the provider deterministically per request. -/
abbrev Oracle := ChatCall → GoResult String

/-- `openai.ChatModelGPT4oMini`. -/
def chatModelGPT4oMini : String := "gpt-4o-mini"

/-- Constant `germanSystemMessage` from the source. -/
def germanSystemMessage : String :=
  "Du bist ein Agent, der das Format von Rezepten ändert." ++
    "Das Rezept muss im Markdown-Format sein: " ++
    "# <Rezeptname>\n" ++
    "## Zutaten\n" ++
    "- **<MENGE>** Zutat \n" ++
    "## Zubereitung \n" ++
    "### <Anweisung> z.B. Teig anrühren/Vorbereitung\n" ++
    "- <Schritte>\n" ++
    "### <Anweisung> z.B. Backen/Braten\n" ++
    "- <Scritte>\n" ++
    "Alle Zutaten müssen in metrischen Einheiten angegeben werden."

/-- Constant `englishSystemMessage` from the source. -/
def englishSystemMessage : String :=
  "You are an agent that changes the format recipes" ++
    "The recipe needs to be in markdown format: " ++
    "# <Recipe Name>\n" ++ "## Ingredients\n" ++ "- **<UNIT>** Ingredient \n" ++
    "## Preparation" ++
    "### Instructionset 1\n" ++
    "- Steps\n" ++
    "### Instructionset 2" ++
    "- Steps\n" ++
    "All ingredients need to be in metric units."

/-- Constant `judgeSystemMessage` from the source. -/
def judgeSystemMessage : String :=
  "You are a judge AI agent that decides whether input is related to a recipe or not."

/-- JSON body of the by-description generation route (`RecipeGenerateRequest`). -/
structure RecipeGenerateRequest where
  recipeDescription : String
  isGerman : Bool
deriving DecidableEq, Repr

/-- JSON body of the add-recipe route (`RecipeRequest`). -/
structure RecipeRequest where
  recipename : String
  recipe : String
  isGerman : Bool
  recipecategory : String
deriving DecidableEq, Repr

/-- Response entity `Recipe` (JSON output shape and DB scan target). -/
structure Recipe where
  recipename : String
  recipe : String
  id : Nat
  transcript : String
  category : String
deriving DecidableEq, Repr

/-- The chat-completion request issued by the judge for candidate text
`recipe`: system = `judgeSystemMessage`, user = fixed question + the text,
model = GPT-4o-mini.  Both judge implementations build exactly this call. -/
def judgeChatCall (recipe : String) : ChatCall :=
  { messages :=
      [ { role := "system", content := judgeSystemMessage },
        { role := "user",
          content :=
            "Is this input related to a recipe? Only answer with \x27yes\x27 or \x27no\x27"
              ++ recipe } ],
    model := chatModelGPT4oMini }

/-- `isRecipeRelated` (plain-text judge used on the voice path): issues the
judge call through `goopenAIChatCompletion`; a call error yields `false`;
otherwise the verdict is whether the lowercased response contains "yes". -/
def isRecipeRelated (oracle : Oracle) (recipe : String) : Bool :=
  match oracle (judgeChatCall recipe) with
  | .error _ => false
  | .ok result => strContains (strToLower result) "yes"

/-- State of an HTTP request body stream (`r.Body`): an unread stream over
known bytes, an exhausted stream, or a stream whose read fails. -/
inductive BodyStream where
  | fresh (bytes : String)
  | consumed
  | failing
deriving DecidableEq, Repr

/-- Go `io.ReadAll` on a body stream: returns the remaining bytes and
leaves the stream exhausted, or fails. -/
def readAll : BodyStream → GoResult String × BodyStream
  | .fresh bytes => (.ok bytes, .consumed)
  | .consumed => (.ok "", .consumed)
  | .failing => (.error "read error", .failing)

/-- The part of `*http.Request` the judge middleware touches: the body. -/
structure Request where
  body : BodyStream
deriving DecidableEq, Repr

/-- Result of `HandlerIsRecipeRelated`: the boolean verdict, the request as
left for the wrapped handler, and the chat-completion calls issued. -/
structure JudgeResult where
  verdict : Bool
  req : Request
  calls : List ChatCall
deriving DecidableEq, Repr

/-- `HandlerIsRecipeRelated`: reads the whole body (error → `false`),
restores the bytes into `r.Body`, decodes a `RecipeGenerateRequest`
(error → `false`), issues the judge call (error → `false`), and otherwise
returns whether the response content contains "yes" (case-sensitive, as in
the source: no `ToLower` on this path).  `decode` is the deterministic
`json.Unmarshal` into `RecipeGenerateRequest`. -/
def HandlerIsRecipeRelated (oracle : Oracle)
    (decode : String → GoResult RecipeGenerateRequest) (r : Request) :
    JudgeResult :=
  match readAll r.body with
  | (.error _, b) => { verdict := false, req := { body := b }, calls := [] }
  | (.ok bodyBytes, _) =>
    let r2 : Request := { body := .fresh bodyBytes }
    match decode bodyBytes with
    | .error _ => { verdict := false, req := r2, calls := [] }
    | .ok req =>
      let call := judgeChatCall req.recipeDescription
      match oracle call with
      | .error _ => { verdict := false, req := r2, calls := [call] }
      | .ok content =>
        { verdict := strContains content "yes", req := r2, calls := [call] }

/-- Body of an HTTP response: an `http.Error`/`fmt.Fprint` text, or the
JSON encoding of a `Recipe` value. -/
inductive ResponseBody where
  | text (s : String)
  | recipeJson (r : Recipe)
deriving DecidableEq, Repr

/-- An HTTP response: status code and body. -/
structure Response where
  status : Nat
  body : ResponseBody
deriving DecidableEq, Repr

/-- A downstream handler, as observed here: consumes the request and
produces a response together with the chat-completion calls it issued. -/
abbrev Handler := Request → Response × List ChatCall

/-- `HandlerJudgeMiddleware`: runs `HandlerIsRecipeRelated` on the request;
on a `false` verdict answers 400 "Input rejected by LLM judge" without
calling `next`; on `true` runs `next` on the request the judge left
behind. -/
def HandlerJudgeMiddleware (next : Handler) (oracle : Oracle)
    (decode : String → GoResult RecipeGenerateRequest) (r : Request) :
    Response × List ChatCall :=
  let jr := HandlerIsRecipeRelated oracle decode r
  if jr.verdict = false then
    ({ status := 400, body := .text "Input rejected by LLM judge" }, jr.calls)
  else
    let (resp, calls) := next jr.req
    (resp, jr.calls ++ calls)

/-- The chat-completion request built by `openAIgenerateRecipe` from the
description and the locale flag: German or English format-contract system
message plus the locale-specific task phrase with the description appended. -/
def openAIgenerateRecipeCall (recipeDescription : String) (isGerman : Bool) :
    ChatCall :=
  if isGerman then
    { messages :=
        [ { role := "system", content := germanSystemMessage },
          { role := "user",
            content := "Erstelle ein Rezept für folgende Beschreibung: "
              ++ recipeDescription } ],
      model := chatModelGPT4oMini }
  else
    { messages :=
        [ { role := "system", content := englishSystemMessage },
          { role := "user",
            content := "Generate a recipe for the following description: "
              ++ recipeDescription } ],
      model := chatModelGPT4oMini }

/-- `openAIgenerateRecipe`: issues the generation call and returns the
first choice content, or the call error. -/
def openAIgenerateRecipe (oracle : Oracle) (recipeDescription : String)
    (isGerman : Bool) : GoResult String :=
  match oracle (openAIgenerateRecipeCall recipeDescription isGerman) with
  | .error e => .error e
  | .ok content => .ok content

/-- The chat-completion request built by `openAIgenerateRecipeName`:
locale-specific "respond only with the recipe name, 2 words max" system
message plus the task phrase with the recipe text appended. -/
def openAIgenerateRecipeNameCall (recipe : String) (isGerman : Bool) :
    ChatCall :=
  if isGerman then
    { messages :=
        [ { role := "system",
            content :=
              "Du bist ein Agent, der nur mit dem Rezeptnamen antwortet. Maximal 2 Wörter." },
          { role := "user",
            content := "Generiere einen Rezeptnamen für: " ++ recipe } ],
      model := chatModelGPT4oMini }
  else
    { messages :=
        [ { role := "system",
            content := "You only respond with the recipe name. 2 words max." },
          { role := "user",
            content := "Generate a recipe name for: " ++ recipe } ],
      model := chatModelGPT4oMini }

/-- `openAIgenerateRecipeName`: issues the naming call and returns the
first choice content unchanged, or the call error. -/
def openAIgenerateRecipeName (oracle : Oracle) (recipe : String)
    (isGerman : Bool) : GoResult String :=
  match oracle (openAIgenerateRecipeNameCall recipe isGerman) with
  | .error e => .error e
  | .ok content => .ok content

/-- The multipart-form part of the voice request that
`HandleGenerateRecipeByVoice` inspects: whether `ParseMultipartForm`
succeeded, the outcome of `FormFile "audio"`, and the raw string value of
the `isGerman` form field (empty when absent). -/
structure VoiceRequest where
  parseFormOk : Bool
  audioFile : GoResult Unit
  isGermanField : String
deriving Repr

/-- `HandleGenerateRecipeByVoice` (after route dispatch): validates the
form, transcribes (`transcribeResult` is the Whisper call outcome on the
uploaded file), gates the transcript through `isRecipeRelated` (400 on a
`false` verdict), then generates the recipe and its name, answering 200
with the JSON `Recipe`.  The returned list is the sequence of
chat-completion calls issued. -/
def HandleGenerateRecipeByVoice (oracle : Oracle)
    (transcribeResult : GoResult String) (r : VoiceRequest) :
    Response × List ChatCall :=
  if r.parseFormOk = false then
    ({ status := 400, body := .text "Failed to parse form data" }, [])
  else match r.audioFile with
  | .error _ => ({ status := 400, body := .text "Failed to get the audio file" }, [])
  | .ok _ =>
    if r.isGermanField = "" then
      ({ status := 400, body := .text "isGerman cannot be empty" }, [])
    else if r.isGermanField = "true" ∨ r.isGermanField = "false" then
      let isGerman := r.isGermanField = "true"
      match transcribeResult with
      | .error _ => ({ status := 500, body := .text "Failed to generate recipe" }, [])
      | .ok transcript =>
        if isRecipeRelated oracle transcript = false then
          ({ status := 400, body := .text "Input rejected by LLM judge" },
            [judgeChatCall transcript])
        else
          match oracle (openAIgenerateRecipeCall transcript isGerman) with
          | .error _ =>
            ({ status := 500, body := .text "Error generating recipe" },
              [judgeChatCall transcript, openAIgenerateRecipeCall transcript isGerman])
          | .ok recipe =>
            match oracle (openAIgenerateRecipeNameCall recipe isGerman) with
            | .error _ =>
              ({ status := 500, body := .text "Error generating recipe" },
                [judgeChatCall transcript,
                  openAIgenerateRecipeCall transcript isGerman,
                  openAIgenerateRecipeNameCall recipe isGerman])
            | .ok recipename =>
              ({ status := 200,
                 body := .recipeJson
                   { recipename := recipename, recipe := recipe, id := 0,
                     transcript := transcript, category := "" } },
                [judgeChatCall transcript,
                  openAIgenerateRecipeCall transcript isGerman,
                  openAIgenerateRecipeNameCall recipe isGerman])
    else
      ({ status := 400, body := .text "isGerman must be \x27true\x27 or \x27false\x27" }, [])

/-- `goopenAIgenerateRecipeCategory`: `callResult` is the outcome of the
category chat-completion call (its request carries the fixed category
question plus the recipe text).  A call error yields the empty string;
otherwise the four known labels are scanned in order and the first one
contained in the response is returned, defaulting to "Sonstiges". -/
def goopenAIgenerateRecipeCategory (callResult : GoResult String) : String :=
  match callResult with
  | .error _ => ""
  | .ok content =>
    let categories := ["Hauptgericht", "Vorspeise", "Brot", "Dessert"]
    match categories.find? (fun c => strContains content c) with
    | some c => c
    | none => "Sonstiges"

/-- Category derivation as the spec words it: the fixed labels tested for
substring containment in fixed priority order, else the default label.
Stated separately from `goopenAIgenerateRecipeCategory` so the loop in the
source can be proved to refine this priority chain. -/
def categoryFromResponseSpec (content : String) : String :=
  if strContains content "Hauptgericht" then "Hauptgericht"
  else if strContains content "Vorspeise" then "Vorspeise"
  else if strContains content "Brot" then "Brot"
  else if strContains content "Dessert" then "Dessert"
  else "Sonstiges"

/-- One row of the `recipes` table. -/
structure RecipeRow where
  id : Nat
  userId : Int
  title : String
  content : String
  category : String
deriving DecidableEq, Repr

/-- The `recipes` table: its rows and the next serial id. -/
structure DB where
  rows : List RecipeRow
  nextId : Nat
deriving DecidableEq, Repr

/-- `AddRecipeToDB`: the parameterised insert
`insert into recipes(user_id, title, content, category)`.  `execOk` is the
driver outcome; on success the row is appended with the next serial id and
the stored strings are exactly the arguments. -/
def AddRecipeToDB (db : DB) (execOk : Bool) (userID : Int)
    (recipeName recipeContent recipeCategory : String) : GoResult Unit × DB :=
  if execOk then
    (.ok (),
      { rows := db.rows ++
          [{ id := db.nextId, userId := userID, title := recipeName,
             content := recipeContent, category := recipeCategory }],
        nextId := db.nextId + 1 })
  else
    (.error "insert failed", db)

/-- `GetRecipes`: `select id, title, content, category from recipes where
user_id = $1`, scanned into `Recipe` values in row order.  `queryOk` is the
driver outcome of the query. -/
def GetRecipes (db : DB) (queryOk : Bool) (userid : Int) :
    GoResult (List Recipe) :=
  if queryOk then
    .ok ((db.rows.filter (fun row => row.userId = userid)).map
      (fun row =>
        { recipename := row.title, recipe := row.content, id := row.id,
          transcript := "", category := row.category }))
  else
    .error "query failed"

/-- `addBlob`: uploads `content` to blob `blob` of the `$web` container.
`uploadResult` is the SDK outcome of `UploadBuffer`; the source logs a
failed client construction or upload but unconditionally returns nil, so
the outcome never reaches the caller. -/
def addBlob (uploadResult : GoResult Unit)
    (_storageAccountName _blob _content : String) : GoResult Unit :=
  match uploadResult with
  | .error _ => .ok ()
  | .ok _ => .ok ()

/-- Go `+=`-style link line for one recipe in the index template. -/
def recipeLinkFormat (name : String) : String :=
  "- [" ++ name ++ "](/?recipe=" ++ strReplaceSpaceDash name ++ ")\n"

/-- `templateRecipesBlob`: reads the user recipes (propagating a query
error), groups the link lines by category, and uploads the combined
index document `recipes.md` through `addBlob` (whose result is always
nil). -/
def templateRecipesBlob (db : DB) (queryOk : Bool)
    (uploadResult : GoResult Unit) (storageAccountName : String)
    (userid : Int) : GoResult Unit :=
  match GetRecipes db queryOk userid with
  | .error e => .error e
  | .ok recipes =>
    let pick (cat : String) : String :=
      String.join ((recipes.filter (fun r => r.category = cat)).map
        (fun r => recipeLinkFormat r.recipename))
    let misc : String :=
      String.join ((recipes.filter (fun r =>
        r.category ≠ "Hauptgericht" ∧ r.category ≠ "Brot" ∧
          r.category ≠ "Vorspeise" ∧ r.category ≠ "Dessert")).map
        (fun r => recipeLinkFormat r.recipename))
    let combinedTemplate := "# Rezepte\n\n" ++ "🍝 Hauptgerichte\n" ++ pick "Hauptgericht" ++
      "\n🥗 Vorspeisen\n" ++ pick "Vorspeise" ++
      "\n🧁 Desserts\n" ++ pick "Dessert" ++
      "\n🍞 Brot\n" ++ pick "Brot" ++
      "\n🍴 Sonstiges\n" ++ misc
    addBlob uploadResult storageAccountName "recipes.md" combinedTemplate

/-- External outcomes consumed by `HandleAddRecipe`: the category call, the
user lookup, the insert, and the two blob uploads. -/
structure AddRecipeEnv where
  categoryCallResult : GoResult String
  userInfo : GoResult (Int × String)
  insertOk : Bool
  blobUpload : GoResult Unit
  templateQueryOk : Bool
  templateUpload : GoResult Unit
deriving Repr

/-- `HandleAddRecipe`: method and payload validation, category derivation
when the caller supplied none, user lookup, DB insert, blob mirror of the
recipe Markdown, and index regeneration; answers 200 "Recipe added
successfully!" when every surfaced step succeeded. -/
def HandleAddRecipe (env : AddRecipeEnv) (method : String)
    (decoded : GoResult RecipeRequest) (db : DB) : Response × DB :=
  if method ≠ "POST" then
    ({ status := 405, body := .text "Invalid request method" }, db)
  else match decoded with
  | .error _ => ({ status := 400, body := .text "Invalid JSON payload" }, db)
  | .ok req0 =>
    if req0.recipename = "" ∨ req0.recipe = "" then
      ({ status := 400, body := .text "Missing recipename or recipe" }, db)
    else
      let req : RecipeRequest :=
        if req0.recipecategory = "" then
          { req0 with
            recipecategory := goopenAIgenerateRecipeCategory env.categoryCallResult }
        else req0
      match env.userInfo with
      | .error _ => ({ status := 500, body := .text "Error getting user ID" }, db)
      | .ok (userID, storageaccount) =>
        match AddRecipeToDB db env.insertOk userID req.recipename req.recipe
            req.recipecategory with
        | (.error _, db2) => ({ status := 500, body := .text "Error adding recipe" }, db2)
        | (.ok _, db2) =>
          let recipePath := "recipes/" ++ strReplaceSpaceDash req.recipename ++ ".md"
          match addBlob env.blobUpload storageaccount recipePath req.recipe with
          | .error _ => ({ status := 500, body := .text "Failed to update recipe" }, db2)
          | .ok _ =>
            match templateRecipesBlob db2 env.templateQueryOk env.templateUpload
                storageaccount userID with
            | .error _ =>
              ({ status := 500, body := .text "Failed to template recipes" }, db2)
            | .ok _ =>
              ({ status := 200, body := .text "Recipe added successfully!" }, db2)

/-- A chat-completion request is a primary-generation call when it is the
call `openAIgenerateRecipe` builds for some description and locale. -/
def isGenerationCall (c : ChatCall) : Prop :=
  ∃ d g, c = openAIgenerateRecipeCall d g

/-- The judge question call is never the primary-generation call: their
system messages differ. -/
theorem judgeChatCall_not_generation (t : String) :
    ¬ isGenerationCall (judgeChatCall t) := by
  rintro ⟨d, g, h⟩
  have hsys := congrArg (fun c => c.messages.map ChatMessage.role) h
  have hcontent := congrArg (fun c => c.messages.map ChatMessage.content) h
  cases g <;>
    simp only [judgeChatCall, openAIgenerateRecipeCall, if_pos, if_neg,
      Bool.false_eq_true, List.map] at hcontent <;>
    exact absurd (List.cons.injEq _ _ _ _ ▸ hcontent).1 (by decide)

/-- Every chat call issued by `HandlerIsRecipeRelated` is a judge question. -/
theorem handlerIsRecipeRelated_calls_are_judge (oracle : Oracle)
    (decode : String → GoResult RecipeGenerateRequest) (r : Request) :
    ∀ c ∈ (HandlerIsRecipeRelated oracle decode r).calls,
      ∃ t, c = judgeChatCall t := by
  unfold HandlerIsRecipeRelated
  rcases hr : readAll r.body with ⟨res, b⟩
  cases res with
  | error e => simp
  | ok bodyBytes =>
    cases hd : decode bodyBytes with
    | error e => simp only [hd]; simp
    | ok req =>
      simp only [hd]
      cases ho : oracle (judgeChatCall req.recipeDescription) with
      | error e => simp only [ho]; simp
      | ok content => simp only [ho]; simp

/-- C1: if the judge gate's underlying LLM call fails — a transport or
provider error, or a failure to read or decode the judged request body —
the verdict is `false` for both `isRecipeRelated` and
`HandlerIsRecipeRelated`, and `HandlerJudgeMiddleware` then rejects the
request with 400 instead of running the wrapped handler (fail-closed). -/
theorem judge_gate_fail_closed (oracle : Oracle)
    (decode : String → GoResult RecipeGenerateRequest)
    (recipe e : String) (r : Request) :
    (oracle (judgeChatCall recipe) = .error e →
      isRecipeRelated oracle recipe = false)
    ∧ (r.body = .failing → (HandlerIsRecipeRelated oracle decode r).verdict = false)
    ∧ (∀ bytes e2, r.body = .fresh bytes → decode bytes = .error e2 →
        (HandlerIsRecipeRelated oracle decode r).verdict = false)
    ∧ (∀ bytes req e3, r.body = .fresh bytes → decode bytes = .ok req →
        oracle (judgeChatCall req.recipeDescription) = .error e3 →
        (HandlerIsRecipeRelated oracle decode r).verdict = false)
    ∧ (∀ next : Handler, (HandlerIsRecipeRelated oracle decode r).verdict = false →
        (HandlerJudgeMiddleware next oracle decode r).1 =
          { status := 400, body := .text "Input rejected by LLM judge" }) := by
  refine ⟨fun h => ?_, fun h => ?_, fun bytes e2 hb hd => ?_,
    fun bytes req e3 hb hd ho => ?_, fun next hv => ?_⟩
  · simp [isRecipeRelated, h]
  · simp [HandlerIsRecipeRelated, h, readAll]
  · simp [HandlerIsRecipeRelated, hb, readAll, hd]
  · simp [HandlerIsRecipeRelated, hb, readAll, hd, ho]
  · simp [HandlerJudgeMiddleware, hv]

/-- Witness for `judge_gate_fail_closed` at a concrete failing oracle. -/
theorem judge_gate_fail_closed_witness :
    isRecipeRelated (fun _ => .error "boom") "pasta" = false
    ∧ (HandlerIsRecipeRelated (fun _ => .error "boom")
        (fun s => .ok { recipeDescription := s, isGerman := false })
        { body := .fresh "pasta" }).verdict = false
    ∧ (HandlerJudgeMiddleware (fun _ => ({ status := 200, body := .text "next ran" }, []))
        (fun _ => .error "boom")
        (fun s => .ok { recipeDescription := s, isGerman := false })
        { body := .fresh "pasta" }).1 =
      { status := 400, body := .text "Input rejected by LLM judge" } := by
  refine ⟨?_, ?_, ?_⟩
  · exact (judge_gate_fail_closed (fun _ => .error "boom")
      (fun s => .ok { recipeDescription := s, isGerman := false })
      "pasta" "boom" { body := .fresh "pasta" }).1 rfl
  · exact (judge_gate_fail_closed (fun _ => .error "boom")
      (fun s => .ok { recipeDescription := s, isGerman := false })
      "pasta" "boom" { body := .fresh "pasta" }).2.2.2.1 "pasta"
      { recipeDescription := "pasta", isGerman := false } "boom" rfl rfl rfl
  · exact (judge_gate_fail_closed (fun _ => .error "boom")
      (fun s => .ok { recipeDescription := s, isGerman := false })
      "pasta" "boom" { body := .fresh "pasta" }).2.2.2.2
      (fun _ => ({ status := 200, body := .text "next ran" }, [])) (by rfl)

/-- C2 counterexample: the claim fails for `HandlerIsRecipeRelated`.  At a
judge response "Yes" — which contains the token "yes" case-insensitively —
the middleware judge returns `false`, because the source matches "yes" in
that function without lowercasing. -/
theorem handler_judge_case_sensitive_cex :
    (HandlerIsRecipeRelated (fun _ => .ok "Yes")
        (fun s => .ok { recipeDescription := s, isGerman := false })
        { body := .fresh "tomato soup" }).verdict = false
    ∧ strContains (strToLower "Yes") "yes" = true := by
  exact ⟨rfl, rfl⟩

/-- C2 amended: on a successful judge call with response `result`,
`isRecipeRelated` answers `true` iff the lowercased response contains
"yes" (case-insensitive containment), while `HandlerIsRecipeRelated`
answers `true` iff the raw response contains "yes" (case-sensitive). -/
theorem judge_yes_token_matching (oracle : Oracle)
    (decode : String → GoResult RecipeGenerateRequest)
    (recipe result bytes : String) (req : RecipeGenerateRequest) :
    (oracle (judgeChatCall recipe) = .ok result →
      isRecipeRelated oracle recipe = strContains (strToLower result) "yes")
    ∧ (decode bytes = .ok req →
        oracle (judgeChatCall req.recipeDescription) = .ok result →
        (HandlerIsRecipeRelated oracle decode { body := .fresh bytes }).verdict =
          strContains result "yes") := by
  constructor
  · intro h
    simp [isRecipeRelated, h]
  · intro hd ho
    simp [HandlerIsRecipeRelated, readAll, hd, ho]

/-- Witness for `judge_yes_token_matching` at the response "Yes": the
voice-path judge accepts it, the middleware judge does not. -/
theorem judge_yes_token_matching_witness :
    isRecipeRelated (fun _ => .ok "Yes") "tomato soup" =
      strContains (strToLower "Yes") "yes"
    ∧ (HandlerIsRecipeRelated (fun _ => .ok "Yes")
        (fun s => .ok { recipeDescription := s, isGerman := false })
        { body := .fresh "tomato soup" }).verdict = strContains "Yes" "yes" := by
  refine ⟨?_, ?_⟩
  · exact (judge_yes_token_matching (fun _ => .ok "Yes")
      (fun s => .ok { recipeDescription := s, isGerman := false })
      "tomato soup" "Yes" "tomato soup"
      { recipeDescription := "tomato soup", isGerman := false }).1 rfl
  · exact (judge_yes_token_matching (fun _ => .ok "Yes")
      (fun s => .ok { recipeDescription := s, isGerman := false })
      "tomato soup" "Yes" "tomato soup"
      { recipeDescription := "tomato soup", isGerman := false }).2 rfl rfl

/-- C3: on both judge-gated paths — the middleware-wrapped by-description
route and the voice route after transcription — a `false` judge verdict
yields HTTP 400 and no primary recipe-generation completion call is ever
issued for that request. -/
theorem judge_gate_blocks_generation (next : Handler) (oracle : Oracle)
    (decode : String → GoResult RecipeGenerateRequest) (r : Request)
    (transcribeResult : GoResult String) (vr : VoiceRequest)
    (transcript : String) :
    ((HandlerIsRecipeRelated oracle decode r).verdict = false →
      (HandlerJudgeMiddleware next oracle decode r).1.status = 400
      ∧ ∀ c ∈ (HandlerJudgeMiddleware next oracle decode r).2, ¬ isGenerationCall c)
    ∧ (transcribeResult = .ok transcript →
        isRecipeRelated oracle transcript = false →
        (HandleGenerateRecipeByVoice oracle transcribeResult vr).1.status = 400
        ∧ ∀ c ∈ (HandleGenerateRecipeByVoice oracle transcribeResult vr).2,
            ¬ isGenerationCall c) := by
  constructor
  · intro hv
    constructor
    · simp [HandlerJudgeMiddleware, hv]
    · intro c hc
      simp only [HandlerJudgeMiddleware, hv, if_pos] at hc
      obtain ⟨t, ht⟩ := handlerIsRecipeRelated_calls_are_judge oracle decode r c hc
      exact ht ▸ judgeChatCall_not_generation t
  · intro htr hv
    unfold HandleGenerateRecipeByVoice
    cases hp : vr.parseFormOk with
    | false => simp [hp]
    | true =>
      cases ha : vr.audioFile with
      | error e => simp [hp, ha]
      | ok u =>
        by_cases hg : vr.isGermanField = ""
        · simp [hp, ha, hg]
        · by_cases hg2 : vr.isGermanField = "true" ∨ vr.isGermanField = "false"
          · simp [hp, ha, hg, hg2, htr, hv, judgeChatCall_not_generation]
          · simp [hp, ha, hg, hg2]

/-- Witness for `judge_gate_blocks_generation`: the judge answers "no" to
the input "my car won\x27t start"; both paths answer 400 and issue no
generation call. -/
theorem judge_gate_blocks_generation_witness :
    ((HandlerJudgeMiddleware (fun _ => ({ status := 200, body := .text "next ran" }, []))
        (fun _ => .ok "no")
        (fun s => .ok { recipeDescription := s, isGerman := false })
        { body := .fresh "my car won\x27t start" }).1.status = 400
      ∧ ∀ c ∈ (HandlerJudgeMiddleware (fun _ => ({ status := 200, body := .text "next ran" }, []))
          (fun _ => .ok "no")
          (fun s => .ok { recipeDescription := s, isGerman := false })
          { body := .fresh "my car won\x27t start" }).2, ¬ isGenerationCall c)
    ∧ ((HandleGenerateRecipeByVoice (fun _ => .ok "no")
          (.ok "my car won\x27t start")
          { parseFormOk := true, audioFile := .ok (), isGermanField := "false" }).1.status = 400
      ∧ ∀ c ∈ (HandleGenerateRecipeByVoice (fun _ => .ok "no")
          (.ok "my car won\x27t start")
          { parseFormOk := true, audioFile := .ok (), isGermanField := "false" }).2,
            ¬ isGenerationCall c) := by
  refine ⟨?_, ?_⟩
  · exact (judge_gate_blocks_generation
      (fun _ => ({ status := 200, body := .text "next ran" }, []))
      (fun _ => .ok "no")
      (fun s => .ok { recipeDescription := s, isGerman := false })
      { body := .fresh "my car won\x27t start" }
      (.ok "my car won\x27t start")
      { parseFormOk := true, audioFile := .ok (), isGermanField := "false" }
      "my car won\x27t start").1 (by rfl)
  · exact (judge_gate_blocks_generation
      (fun _ => ({ status := 200, body := .text "next ran" }, []))
      (fun _ => .ok "no")
      (fun s => .ok { recipeDescription := s, isGerman := false })
      { body := .fresh "my car won\x27t start" }
      (.ok "my car won\x27t start")
      { parseFormOk := true, audioFile := .ok (), isGermanField := "false" }
      "my car won\x27t start").2 rfl (by rfl)

/-- C4: on a successful category call, `goopenAIgenerateRecipeCategory`
returns the first label of the fixed ordered list [Hauptgericht,
Vorspeise, Brot, Dessert] contained as a substring of the response,
defaulting to "Sonstiges" when none occurs — i.e. it coincides with the
explicit fixed-priority chain `categoryFromResponseSpec`; in particular
the response "I\x27d say Dessert works well" yields "Dessert". -/
theorem category_first_substring_match (result : String) :
    goopenAIgenerateRecipeCategory (.ok result) = categoryFromResponseSpec result
    ∧ goopenAIgenerateRecipeCategory (.ok "I\x27d say Dessert works well") = "Dessert" := by
  constructor
  · cases h1 : strContains result "Hauptgericht" <;>
      cases h2 : strContains result "Vorspeise" <;>
        cases h3 : strContains result "Brot" <;>
          cases h4 : strContains result "Dessert" <;>
            simp [goopenAIgenerateRecipeCategory, categoryFromResponseSpec,
              List.find?, h1, h2, h3, h4]
  · rfl

/-- C5 evidence: `addBlob` swallows a failed upload (it logs and returns
nil), so an add-recipe request whose blob mirror upload fails is still
answered 200 "Recipe added successfully!" instead of a server error. -/
theorem addrecipe_blob_failure_not_surfaced :
    addBlob (.error "upload failed") "acct" "recipes/Tomato-Soup.md" "recipe body" = .ok ()
    ∧ (HandleAddRecipe
        { categoryCallResult := .ok "Dessert", userInfo := .ok (1, "acct"),
          insertOk := true, blobUpload := .error "upload failed",
          templateQueryOk := true, templateUpload := .ok () }
        "POST"
        (.ok { recipename := "Tomato Soup", recipe := "recipe body",
               isGerman := false, recipecategory := "Dessert" })
        { rows := [], nextId := 1 }).1 =
      { status := 200, body := .text "Recipe added successfully!" } := by
  exact ⟨rfl, rfl⟩

/-- C6: `openAIgenerateRecipeName` returns the model response content
unmodified — no truncation, trimming, or word-count enforcement — e.g. a
five-word response comes back exactly as the model produced it. -/
theorem recipe_name_passthrough (oracle : Oracle) (recipe content : String)
    (isGerman : Bool) :
    (oracle (openAIgenerateRecipeNameCall recipe isGerman) = .ok content →
      openAIgenerateRecipeName oracle recipe isGerman = .ok content)
    ∧ openAIgenerateRecipeName
        (fun _ => .ok "Creamy Tomato Basil Soup Delight") recipe isGerman =
      .ok "Creamy Tomato Basil Soup Delight" := by
  constructor
  · intro h
    simp [openAIgenerateRecipeName, h]
  · cases isGerman <;> rfl

/-- Witness for `recipe_name_passthrough` at a concrete oracle. -/
theorem recipe_name_passthrough_witness :
    openAIgenerateRecipeName (fun _ => .ok "Creamy Tomato Basil Soup Delight")
      "some recipe text" false = .ok "Creamy Tomato Basil Soup Delight" := by
  exact (recipe_name_passthrough (fun _ => .ok "Creamy Tomato Basil Soup Delight")
    "some recipe text" "Creamy Tomato Basil Soup Delight" false).1 rfl

/-- C7: in description mode with the locale flag `false` and payload
"tomato soup", the prompt built by `openAIgenerateRecipe` is exactly the
English format-contract system message plus the user message "Generate a
recipe for the following description: tomato soup" (model GPT-4o-mini),
and `openAIgenerateRecipe` consults the completion client at exactly this
deterministically built call. -/
theorem description_prompt_english_tomato_soup :
    openAIgenerateRecipeCall "tomato soup" false =
      { messages :=
          [ { role := "system", content := englishSystemMessage },
            { role := "user",
              content := "Generate a recipe for the following description: tomato soup" } ],
        model := "gpt-4o-mini" }
    ∧ ∀ oracle : Oracle, openAIgenerateRecipe oracle "tomato soup" false =
        (match oracle (openAIgenerateRecipeCall "tomato soup" false) with
          | .error e => .error e
          | .ok content => .ok content) := by
  exact ⟨rfl, fun _ => rfl⟩

/-- C8: a recipe persisted by `AddRecipeToDB` for a user is returned by a
subsequent `GetRecipes` for that user with name, content, and category
byte-for-byte identical to the stored values — the new listing is the
previous listing extended by exactly that recipe, unmodified. -/
theorem recipe_persist_roundtrip (db : DB) (userID : Int)
    (name content category : String) :
    (AddRecipeToDB db true userID name content category).1 = .ok ()
    ∧ ∃ prev, GetRecipes db true userID = .ok prev
        ∧ GetRecipes (AddRecipeToDB db true userID name content category).2
            true userID =
          .ok (prev ++
            [{ recipename := name, recipe := content, id := db.nextId,
               transcript := "", category := category }]) := by
  constructor
  · rfl
  · have h : GetRecipes db true userID =
        .ok ((db.rows.filter (fun row => row.userId = userID)).map
          (fun row => (⟨row.title, row.content, row.id, "", row.category⟩ : Recipe))) := by
      simp [GetRecipes]
    exact ⟨_, h, by simp [GetRecipes, AddRecipeToDB, List.filter_append]⟩

/-- C9: when the middleware judge reads a fresh request body and returns a
`true` verdict, the request handed to the wrapped handler carries an
identical fresh byte stream, so reading it downstream yields exactly the
bytes the client sent. -/
theorem judge_restores_request_body (oracle : Oracle)
    (decode : String → GoResult RecipeGenerateRequest) (bytes : String) :
    (HandlerIsRecipeRelated oracle decode { body := .fresh bytes }).verdict = true →
      (HandlerIsRecipeRelated oracle decode { body := .fresh bytes }).req =
        { body := .fresh bytes }
      ∧ readAll (HandlerIsRecipeRelated oracle decode { body := .fresh bytes }).req.body =
          (.ok bytes, .consumed) := by
  intro _
  unfold HandlerIsRecipeRelated
  simp only [readAll]
  cases hd : decode bytes with
  | error e => simp [hd, readAll]
  | ok req =>
    cases ho : oracle (judgeChatCall req.recipeDescription) with
    | error e => simp [hd, ho, readAll]
    | ok content => simp [hd, ho, readAll]

/-- Witness for `judge_restores_request_body` at a concrete accepting run. -/
theorem judge_restores_request_body_witness :
    (HandlerIsRecipeRelated (fun _ => .ok "yes")
        (fun s => .ok { recipeDescription := s, isGerman := false })
        { body := .fresh "tomato soup" }).req =
      { body := .fresh "tomato soup" }
    ∧ readAll (HandlerIsRecipeRelated (fun _ => .ok "yes")
        (fun s => .ok { recipeDescription := s, isGerman := false })
        { body := .fresh "tomato soup" }).req.body =
      (.ok "tomato soup", .consumed) := by
  exact judge_restores_request_body (fun _ => .ok "yes")
    (fun s => .ok { recipeDescription := s, isGerman := false })
    "tomato soup" rfl

/-- C10: when the category call itself fails,
`goopenAIgenerateRecipeCategory` returns the empty string (not
"Sonstiges"), and `HandleAddRecipe` persists the recipe with that empty
category and still answers 200 — so a stored category need not lie in the
set of the five known labels. -/
theorem category_call_failure_persists_empty (db : DB) (userID : Int)
    (acct e : String) (req : RecipeRequest)
    (h1 : ¬ req.recipename = "") (h2 : ¬ req.recipe = "")
    (h3 : req.recipecategory = "") :
    goopenAIgenerateRecipeCategory (.error e) = ""
    ∧ (HandleAddRecipe
        { categoryCallResult := .error e, userInfo := .ok (userID, acct),
          insertOk := true, blobUpload := .ok (),
          templateQueryOk := true, templateUpload := .ok () }
        "POST" (.ok req) db).1.status = 200
    ∧ ∃ row ∈ (HandleAddRecipe
        { categoryCallResult := .error e, userInfo := .ok (userID, acct),
          insertOk := true, blobUpload := .ok (),
          templateQueryOk := true, templateUpload := .ok () }
        "POST" (.ok req) db).2.rows,
        row.title = req.recipename ∧ row.content = req.recipe
        ∧ row.category = ""
        ∧ row.category ∉
            (["Hauptgericht", "Vorspeise", "Brot", "Dessert", "Sonstiges"] :
              List String) := by
  refine ⟨rfl, ?_, ?_⟩
  · simp [HandleAddRecipe, h1, h2, h3, goopenAIgenerateRecipeCategory,
      AddRecipeToDB, addBlob, templateRecipesBlob, GetRecipes]
  · refine ⟨⟨db.nextId, userID, req.recipename, req.recipe, ""⟩,
      ?_, rfl, rfl, rfl, by
        show ("" : String) ∉
          (["Hauptgericht", "Vorspeise", "Brot", "Dessert", "Sonstiges"] : List String)
        decide⟩
    simp [HandleAddRecipe, h1, h2, h3, goopenAIgenerateRecipeCategory,
      AddRecipeToDB, addBlob, templateRecipesBlob, GetRecipes]

/-- Witness for `category_call_failure_persists_empty` at a concrete
request whose category call fails. -/
theorem category_call_failure_persists_empty_witness :
    goopenAIgenerateRecipeCategory (.error "provider down") = ""
    ∧ (HandleAddRecipe
        { categoryCallResult := .error "provider down", userInfo := .ok (1, "acct"),
          insertOk := true, blobUpload := .ok (),
          templateQueryOk := true, templateUpload := .ok () }
        "POST"
        (.ok { recipename := "Tomato Soup", recipe := "recipe body",
               isGerman := false, recipecategory := "" })
        { rows := [], nextId := 1 }).1.status = 200
    ∧ ∃ row ∈ (HandleAddRecipe
        { categoryCallResult := .error "provider down", userInfo := .ok (1, "acct"),
          insertOk := true, blobUpload := .ok (),
          templateQueryOk := true, templateUpload := .ok () }
        "POST"
        (.ok { recipename := "Tomato Soup", recipe := "recipe body",
               isGerman := false, recipecategory := "" })
        { rows := [], nextId := 1 }).2.rows,
        row.title = "Tomato Soup" ∧ row.content = "recipe body"
        ∧ row.category = ""
        ∧ row.category ∉
            (["Hauptgericht", "Vorspeise", "Brot", "Dessert", "Sonstiges"] :
              List String) := by
  exact category_call_failure_persists_empty { rows := [], nextId := 1 } 1
    "acct" "provider down"
    { recipename := "Tomato Soup", recipe := "recipe body",
      isGerman := false, recipecategory := "" }
    (by decide) (by decide) rfl

end RecipeGen
